import Mathlib

/-!
Verification development for the MCP-Odoo accounting connector.

The definitions below are a shallow embedding of the Python sources:
  * `src/odoo/client.py`   — the session-aware XML-RPC client (`OdooClient`),
  * `src/odoo/exceptions.py` — the error taxonomy,
  * `src/resources/accounting.py` — domain builders, the reconciliation
    report and the account-flow tracer.

The remote Odoo backend is modelled as a value store (lists of records)
together with oracle values describing the outcome of each remote attempt;
monetary amounts are embedded as exact rationals, Python `Optional`
parameters as `Option`, and Python truthiness (`if partner_id:`) is
translated explicitly at every use site.
-/

/-- Substring test: Python's `needle in hay`. -/
def strContains (hay needle : String) : Bool :=
  decide (needle.data <:+: hay.data)

/-- Python's `str.lower()` (code-point-wise lowercasing, as in CPython for
the ASCII fault phrases this code matches against). -/
def lowerStr (s : String) : String :=
  String.mk (s.data.map Char.toLower)

/-- Lexicographic comparison of code-point sequences: Python's `<=` on
strings, used by the backend to evaluate the `>=`/`<=` date predicates. -/
def charListLe : List Char → List Char → Bool
  | [], _ => true
  | _ :: _, [] => false
  | a :: as, b :: bs => if a < b then true else if b < a then false else charListLe as bs

/-- `s1 <= s2` for strings (lexicographic by code point). -/
def strLe (s1 s2 : String) : Bool :=
  charListLe s1.data s2.data

/-- `src/odoo/client.py` line 146: the session-expiry detection heuristic,
`"session expired" in str(e).lower() or "not logged" in str(e).lower()`. -/
def expirySignature (msg : String) : Bool :=
  strContains (lowerStr msg) "session expired" || strContains (lowerStr msg) "not logged"

/-- Python truthiness of `self.uid` (`None` and `False`/`0` are falsy; the
xmlrpc `authenticate` returns `False` on rejection, embedded as `some 0`). -/
def pyTruthyUid : Option Int → Bool
  | none => false
  | some n => n != 0

/-- Mutable state of `OdooClient`: `self.uid` and `self._connected`. -/
structure ClientState where
  uid : Option Int
  connected : Bool
deriving DecidableEq, Repr

/-- The error classes of `src/odoo/exceptions.py` that calls can surface. -/
inductive OdooErr where
  | connectionError : String → OdooErr
  | authenticationError : String → OdooErr
  | requestError : String → OdooErr
deriving DecidableEq, Repr

/-- Outcome of the remote `common.authenticate` call inside `connect`:
either the transport raises, or a uid is returned (`0` embeds the falsy
`False` that Odoo returns when the credentials are rejected). -/
inductive AuthOutcome where
  | raises : String → AuthOutcome
  | returns : Int → AuthOutcome
deriving DecidableEq, Repr

/-- `OdooClient.connect` (`src/odoo/client.py` lines 52-84).  The body is a
single `try` block: authenticate; raise `OdooAuthenticationError` when the
returned uid is falsy; set `_connected`; fetch the server version (which is
itself wrapped in `OdooConnectionError` by `get_server_version`).  The
blanket `except Exception` clears `_connected` and re-raises everything as
`OdooConnectionError("Error connecting to Odoo: " + str(e))` — including
the `OdooAuthenticationError` raised two lines above it. -/
def connect (st : ClientState) (auth : AuthOutcome) (versionFault : Option String) :
    Except OdooErr Int × ClientState :=
  match auth with
  | AuthOutcome.raises msg =>
      -- `common.authenticate` raised: `self.uid` is left unchanged
      (Except.error (OdooErr.connectionError ("Error connecting to Odoo: " ++ msg)),
       { st with connected := false })
  | AuthOutcome.returns u =>
      if u == 0 then
        -- `if not self.uid: raise OdooAuthenticationError(...)`, then the
        -- `except Exception` handler wraps it as a connection error
        (Except.error (OdooErr.connectionError
            ("Error connecting to Odoo: Authentication failed with the provided credentials")),
         { uid := some u, connected := false })
      else
        match versionFault with
        | none => (Except.ok u, { uid := some u, connected := true })
        | some v =>
            (Except.error (OdooErr.connectionError
                ("Error connecting to Odoo: Error getting server version: " ++ v)),
             { uid := some u, connected := false })

/-- `OdooClient.is_connected`: `self.uid is not None and self._connected`. -/
def is_connected (st : ClientState) : Bool :=
  st.uid.isSome && st.connected

/-- A remote call's payload: model, method, positional and keyword args. -/
structure RpcCall where
  model : String
  method : String
  args : List String
  kwargs : List (String × String)
deriving DecidableEq, Repr

/-- Observable remote interactions of `execute_kw`: a `connect()` invocation,
or one `models.execute_kw(db, uid, pwd, model, method, args, kwargs)` attempt
(recorded with the uid used and the full call payload). -/
inductive RpcEvent where
  | connectCall : RpcEvent
  | remoteCall : Option Int → RpcCall → RpcEvent
deriving DecidableEq, Repr

/-- Outcome of one remote `models.execute_kw` attempt. -/
inductive Attempt (V : Type) where
  | ok : V → Attempt V
  | fault : String → Attempt V
deriving DecidableEq, Repr

/-- Oracle fixing the backend's behaviour during one `execute_kw` call:
the (at most one) initial `connect`, the first attempt, the (at most one)
reconnect, and the retry attempt. -/
structure RpcOracle (V : Type) where
  preAuth : AuthOutcome
  preVersionFault : Option String
  attempt1 : Attempt V
  reAuth : AuthOutcome
  reVersionFault : Option String
  attempt2 : Attempt V
deriving DecidableEq, Repr

/-- What `execute_kw` can produce: a value, a raised `Odoo*` error, or the
raw backend fault propagating unwrapped (this happens when the retry issued
from inside the `except` handler fails again). -/
inductive ExecResult (V : Type) where
  | ok : V → ExecResult V
  | err : OdooErr → ExecResult V
  | rawFault : String → ExecResult V
deriving DecidableEq, Repr

/-- Discriminator for `OdooRequestError` (defined in
`src/odoo/exceptions.py` but raised nowhere in the client). -/
def ExecResult.isRequestErr {V : Type} : ExecResult V → Bool
  | ExecResult.err (OdooErr.requestError _) => true
  | _ => false

/-- `OdooClient.execute_kw` (`src/odoo/client.py` lines 110-153):
`if not self.uid: await self.connect()`; issue the call; on an exception
whose text matches the expiry signature, `await self.connect()` and retry
the call once with the same model/method/args/kwargs; any other exception
is re-raised as `OdooConnectionError("Error executing {method} on {model}:
{str(e)}")`.  Returns the result together with the final client state and
the ordered log of remote interactions. -/
def execute_kw {V : Type} (st : ClientState) (c : RpcCall) (o : RpcOracle V) :
    ExecResult V × ClientState × List RpcEvent :=
  let pre : Except OdooErr Int × ClientState × List RpcEvent :=
    if pyTruthyUid st.uid then (Except.ok 0, st, [])
    else
      let rs := connect st o.preAuth o.preVersionFault
      (rs.1, rs.2, [RpcEvent.connectCall])
  match pre with
  | (Except.error e, st1, evs1) => (ExecResult.err e, st1, evs1)
  | (Except.ok _, st1, evs1) =>
    match o.attempt1 with
    | Attempt.ok v => (ExecResult.ok v, st1, evs1 ++ [RpcEvent.remoteCall st1.uid c])
    | Attempt.fault msg =>
      if expirySignature msg then
        let rs2 := connect st1 o.reAuth o.reVersionFault
        match rs2.1 with
        | Except.error e =>
            (ExecResult.err e, rs2.2,
             evs1 ++ [RpcEvent.remoteCall st1.uid c, RpcEvent.connectCall])
        | Except.ok _ =>
          match o.attempt2 with
          | Attempt.ok v =>
              (ExecResult.ok v, rs2.2,
               evs1 ++ [RpcEvent.remoteCall st1.uid c, RpcEvent.connectCall,
                        RpcEvent.remoteCall rs2.2.uid c])
          | Attempt.fault m2 =>
              (ExecResult.rawFault m2, rs2.2,
               evs1 ++ [RpcEvent.remoteCall st1.uid c, RpcEvent.connectCall,
                        RpcEvent.remoteCall rs2.2.uid c])
      else
        (ExecResult.err (OdooErr.connectionError
            ("Error executing " ++ c.method ++ " on " ++ c.model ++ ": " ++ msg)),
         st1, evs1 ++ [RpcEvent.remoteCall st1.uid c])

example : expirySignature "Session Expired detected" = true := by decide
example : expirySignature "It seems you are Not Logged in" = true := by decide
example : expirySignature "boom" = false := by decide
example : strContains "abc" "" = true := by decide
example : strLe "2024-01-01" "2024-02-01" = true := by decide
example : strLe "2024-03-01" "2024-02-01" = false := by decide

/-!
## Query-domain builders (`src/resources/accounting.py`)

Each listing tool builds an Odoo search domain as an ordered list of
`(field, operator, value)` triples.  Python's `if param:` truthiness means
`None`, `0`, `False` and `""` all skip the corresponding `append`.
-/

/-- A domain predicate value (int, string, or a list of strings). -/
inductive DVal where
  | i : Int → DVal
  | s : String → DVal
  | ls : List String → DVal
deriving DecidableEq, Repr

/-- One `(field, operator, value)` predicate triple. -/
structure DomainPred where
  field : String
  op : String
  value : DVal
deriving DecidableEq, Repr

/-- Domain built by `list_vendor_bills` (`accounting.py` lines 250-263):
base predicate `("move_type", "=", "in_invoice")`, then conditional appends
for `partner_id`, `pending`, `date_from`, `date_to`, in that order. -/
def list_vendor_bills_domain (partner_id : Option Int) (pending : Option Bool)
    (date_from date_to : Option String) : List DomainPred :=
  let domain := [DomainPred.mk "move_type" "=" (DVal.s "in_invoice")]
  let domain := match partner_id with
    | some p => if p == 0 then domain else domain ++ [DomainPred.mk "partner_id" "=" (DVal.i p)]
    | none => domain
  let domain := match pending with
    | some b => if b then domain ++ [DomainPred.mk "payment_state" "!=" (DVal.s "paid")] else domain
    | none => domain
  let domain := match date_from with
    | some d => if d == "" then domain else domain ++ [DomainPred.mk "invoice_date" ">=" (DVal.s d)]
    | none => domain
  let domain := match date_to with
    | some d => if d == "" then domain else domain ++ [DomainPred.mk "invoice_date" "<=" (DVal.s d)]
    | none => domain
  domain

/-- Domain built by `list_customer_invoices` (`accounting.py` lines 309-322):
identical to `list_vendor_bills` except the base move type. -/
def list_customer_invoices_domain (partner_id : Option Int) (pending : Option Bool)
    (date_from date_to : Option String) : List DomainPred :=
  let domain := [DomainPred.mk "move_type" "=" (DVal.s "out_invoice")]
  let domain := match partner_id with
    | some p => if p == 0 then domain else domain ++ [DomainPred.mk "partner_id" "=" (DVal.i p)]
    | none => domain
  let domain := match pending with
    | some b => if b then domain ++ [DomainPred.mk "payment_state" "!=" (DVal.s "paid")] else domain
    | none => domain
  let domain := match date_from with
    | some d => if d == "" then domain else domain ++ [DomainPred.mk "invoice_date" ">=" (DVal.s d)]
    | none => domain
  let domain := match date_to with
    | some d => if d == "" then domain else domain ++ [DomainPred.mk "invoice_date" "<=" (DVal.s d)]
    | none => domain
  domain

/-- Domain built by `list_payments` (`accounting.py` lines 368-378): starts
empty, then conditional appends for `partner_id`, `date_from`, `date_to`. -/
def list_payments_domain (partner_id : Option Int)
    (date_from date_to : Option String) : List DomainPred :=
  let domain : List DomainPred := []
  let domain := match partner_id with
    | some p => if p == 0 then domain else domain ++ [DomainPred.mk "partner_id" "=" (DVal.i p)]
    | none => domain
  let domain := match date_from with
    | some d => if d == "" then domain else domain ++ [DomainPred.mk "date" ">=" (DVal.s d)]
    | none => domain
  let domain := match date_to with
    | some d => if d == "" then domain else domain ++ [DomainPred.mk "date" "<=" (DVal.s d)]
    | none => domain
  domain

/-- Domain built by `list_suppliers` (`accounting.py` lines 646-649):
base predicate `("supplier_rank", ">", 0)`, then a conditional
case-insensitive partial-match (`ilike`) predicate for `name`. -/
def list_suppliers_domain (name : Option String) : List DomainPred :=
  let domain := [DomainPred.mk "supplier_rank" ">" (DVal.i 0)]
  let domain := match name with
    | some s => if s == "" then domain else domain ++ [DomainPred.mk "name" "ilike" (DVal.s s)]
    | none => domain
  domain

/-!
Spec-side description of the builders (for the refinement claim C6): the
domain is the base predicate followed by one named contribution per
parameter, in the fixed insertion order of the parameter list.  Per the
builders' truthiness convention, a parameter supplied with its type's
falsy value (`0`, `False`, `""`) counts as omitted.
-/

/-- Spec wording: "a present partner id adds an equality predicate". -/
def specEqContribution (field : String) (v : Option Int) : List DomainPred :=
  match v with
  | some n => if n == 0 then [] else [DomainPred.mk field "=" (DVal.i n)]
  | none => []

/-- Spec wording: "a pending flag of true adds a payment-state-not-equal-
to-paid predicate". -/
def specPendingContribution (pending : Option Bool) : List DomainPred :=
  if pending = some true then [DomainPred.mk "payment_state" "!=" (DVal.s "paid")] else []

/-- Spec wording: "date-from adds an inclusive (>=) range predicate". -/
def specDateFromContribution (field : String) (v : Option String) : List DomainPred :=
  match v with
  | some d => if d == "" then [] else [DomainPred.mk field ">=" (DVal.s d)]
  | none => []

/-- Spec wording: "date-to adds an inclusive (<=) range predicate". -/
def specDateToContribution (field : String) (v : Option String) : List DomainPred :=
  match v with
  | some d => if d == "" then [] else [DomainPred.mk field "<=" (DVal.s d)]
  | none => []

/-- Spec wording: "a name fragment adds a case-insensitive partial-match
predicate". -/
def specNameContribution (v : Option String) : List DomainPred :=
  match v with
  | some s => if s == "" then [] else [DomainPred.mk "name" "ilike" (DVal.s s)]
  | none => []

/-- Spec-side vendor-bills domain: base predicate, then one contribution
per parameter in insertion order. -/
def specVendorBillsDomain (partner_id : Option Int) (pending : Option Bool)
    (date_from date_to : Option String) : List DomainPred :=
  [DomainPred.mk "move_type" "=" (DVal.s "in_invoice")]
    ++ specEqContribution "partner_id" partner_id
    ++ specPendingContribution pending
    ++ specDateFromContribution "invoice_date" date_from
    ++ specDateToContribution "invoice_date" date_to

/-- Spec-side customer-invoices domain. -/
def specCustomerInvoicesDomain (partner_id : Option Int) (pending : Option Bool)
    (date_from date_to : Option String) : List DomainPred :=
  [DomainPred.mk "move_type" "=" (DVal.s "out_invoice")]
    ++ specEqContribution "partner_id" partner_id
    ++ specPendingContribution pending
    ++ specDateFromContribution "invoice_date" date_from
    ++ specDateToContribution "invoice_date" date_to

/-- Spec-side suppliers domain. -/
def specSuppliersDomain (name : Option String) : List DomainPred :=
  [DomainPred.mk "supplier_rank" ">" (DVal.i 0)] ++ specNameContribution name

/-!
## Reconciliation (`reconcile_invoices_and_payments`, `accounting.py` 477-564)

Monetary amounts are embedded as exact rationals.  The backend store holds
the invoices (`account.move`) in backend order and the payments
(`account.payment`); `search_read` with a `limit` returns the matching
records up to that limit.
-/

/-- An `account.move` record as read by the reconciliation report. -/
structure Invoice where
  id : Int
  name : String
  amount_total : ℚ
  invoice_date : String
  payment_state : String
  move_type : String
deriving DecidableEq, Repr

/-- An `account.payment` record. -/
structure Payment where
  id : Int
  name : String
  amount : ℚ
  reconciled_invoice_ids : List Int
deriving DecidableEq, Repr

/-- One output record of the reconciliation report (the derived fields;
`accounting.py` lines 520-558). -/
structure ReconRecord where
  invoice_id : Int
  type : String
  payments : List Payment
  total_paid : ℚ
  outstanding : ℚ
  is_reconciled : Bool
deriving DecidableEq, Repr

/-- Backend evaluation of the invoice domain built at `accounting.py`
494-498: `("move_type", "in", ["in_invoice", "out_invoice"])` plus the
conditionally appended inclusive date bounds (`if date_from:` truthiness). -/
def matchesReconDomain (date_from date_to : Option String) (inv : Invoice) : Bool :=
  (["in_invoice", "out_invoice"].contains inv.move_type)
  && (match date_from with
      | some d => if d == "" then true else strLe d inv.invoice_date
      | none => true)
  && (match date_to with
      | some d => if d == "" then true else strLe inv.invoice_date d
      | none => true)

/-- Backend evaluation of the payment domain
`[("reconciled_invoice_ids", "in", [invoice_id])]` (`accounting.py` 530). -/
def paymentsForInvoice (payments : List Payment) (invoice_id : Int) : List Payment :=
  payments.filter (fun p => p.reconciled_invoice_ids.contains invoice_id)

/-- Derived fields for one invoice (`accounting.py` lines 544-556):
`total_paid = sum(payment["amount"])`, `outstanding = amount_total -
total_paid`, `is_reconciled = payment_state == "paid" or abs(outstanding)
< 0.01`, and the directional type tag of line 525. -/
def reconRecordOf (inv : Invoice) (pays : List Payment) : ReconRecord :=
  let total_paid := (pays.map Payment.amount).sum
  let outstanding := inv.amount_total - total_paid
  { invoice_id := inv.id
    type := if inv.move_type == "in_invoice" then "vendor_bill" else "customer_invoice"
    payments := pays
    total_paid := total_paid
    outstanding := outstanding
    is_reconciled := (inv.payment_state == "paid") || decide (|outstanding| < 1 / 100) }

/-- The remote ledger visible to the reconciliation report. -/
structure ReconStore where
  invoices : List Invoice
  payments : List Payment

/-- `reconcile_invoices_and_payments`: read at most `limit = 5` invoices
matching the domain (`accounting.py` lines 500-513), then emit one record
per invoice read. -/
def reconcile_invoices_and_payments (store : ReconStore)
    (date_from date_to : Option String) : List ReconRecord :=
  let fetched := (store.invoices.filter (matchesReconDomain date_from date_to)).take 5
  fetched.map (fun inv => reconRecordOf inv (paymentsForInvoice store.payments inv.id))

/-- Concrete invoice for the spec's worked example (`total = 100.00`). -/
def invoice100 : Invoice :=
  { id := 1, name := "INV/1", amount_total := 100, invoice_date := "2024-01-15",
    payment_state := "not_paid", move_type := "in_invoice" }

/-- A payment of 99.995 toward `invoice100`. -/
def payment99995 : Payment :=
  { id := 11, name := "PAY/1", amount := 99995 / 1000, reconciled_invoice_ids := [1] }

/-- A payment of 98.00 toward `invoice100`. -/
def payment98 : Payment :=
  { id := 12, name := "PAY/2", amount := 98, reconciled_invoice_ids := [1] }

example : (reconRecordOf invoice100 [payment99995]).is_reconciled = true := by
  norm_num [reconRecordOf, invoice100, payment99995, abs]
example : (reconRecordOf invoice100 [payment98]).is_reconciled = false := by
  norm_num [reconRecordOf, invoice100, payment98, abs]
  decide
example : (reconRecordOf invoice100 [payment98]).outstanding = 2 := by
  norm_num [reconRecordOf, invoice100, payment98]

/-!
## Account-flow tracer (`trace_account_flow`, `accounting.py` 862-1029)

The ledger store holds `account.account`, `account.move` and
`account.move.line` records.  `move_id` is a required field on move lines
(every line references exactly one parent entry), so the source's
`if line.get("move_id")` guards are always satisfied and the field is
embedded as a plain `Int`; `partner_id` and `account_id` are optional
`[id, label]` references embedded by their id.
-/

/-- An `account.account` record. -/
structure Account where
  id : Int
  code : String
deriving DecidableEq, Repr

/-- An `account.move` header as read by the tracer (the partner reference
keeps its display label). -/
structure Move where
  id : Int
  partner_id : Option (Int × String)
deriving DecidableEq, Repr

/-- An `account.move.line` record as read by the tracer. -/
structure MoveLine where
  id : Int
  move_id : Int
  account_id : Option Int
  partner_id : Option Int
  date : String
deriving DecidableEq, Repr

/-- The remote ledger visible to the tracer. -/
structure LedgerStore where
  accounts : List Account
  moves : List Move
  lines : List MoveLine

/-- One direct-relation record: a single entry whose lines touch both
account groups, carried with its full line set. -/
structure DirectRelation where
  move_id : Int
  lines : List MoveLine
deriving DecidableEq, Repr

/-- One indirect-relation record (`accounting.py` 1007-1013). -/
structure IndirectRelation where
  move_id : Int
  to_lines : List MoveLine
  related_from_moves : List Int
  partner : String
deriving DecidableEq, Repr

/-- The tracer's output lists. -/
structure TraceResult where
  direct_relations : List DirectRelation
  indirect_relations : List IndirectRelation
deriving DecidableEq, Repr

/-- Result of `trace_account_flow`: either the early `{"error": ...}`
return when an account code resolves to nothing, or the relation lists. -/
inductive TraceOutcome where
  | notFound : String → TraceOutcome
  | ok : TraceResult → TraceOutcome
deriving DecidableEq, Repr

/-- Remote reads issued by the tracer, in order: an `account.account`
search, an `account.move.line` search/read, or an `account.move` read. -/
inductive TraceEvent where
  | accountSearch : String → TraceEvent
  | lineRead : TraceEvent
  | moveRead : Int → TraceEvent
deriving DecidableEq, Repr

/-- `account.account` search with domain `[("code", "like", code)]`
(`accounting.py` 883-895): Odoo's `like` is a substring match. -/
def resolveAccounts (store : LedgerStore) (code : String) : List Int :=
  (store.accounts.filter (fun a => strContains a.code code)).map Account.id

/-- Backend evaluation of `("account_id", "in", ids)` on a move line. -/
def accountIdIn (ids : List Int) (l : MoveLine) : Bool :=
  match l.account_id with
  | some a => ids.contains a
  | none => false

/-- Backend evaluation of `("partner_id", "in", ids)` on a move line. -/
def partnerIdIn (ids : List Int) (l : MoveLine) : Bool :=
  match l.partner_id with
  | some p => ids.contains p
  | none => false

/-- Backend evaluation of the conditionally appended inclusive date bounds
on a move line (`if date_from:` truthiness, `accounting.py` 908-911). -/
def lineDateOk (date_from date_to : Option String) (l : MoveLine) : Bool :=
  (match date_from with
   | some d => if d == "" then true else strLe d l.date
   | none => true)
  && (match date_to with
      | some d => if d == "" then true else strLe l.date d
      | none => true)

/-- The source-side line read (`accounting.py` 907-917): lines with account
in `F`, optionally date-bounded, capped at 100. -/
def traceFromLines (store : LedgerStore) (F : List Int)
    (date_from date_to : Option String) : List MoveLine :=
  (store.lines.filter (fun l => accountIdIn F l && lineDateOk date_from date_to l)).take 100

/-- All lines of one entry: `[("move_id", "=", m)]`. -/
def linesOfMove (store : LedgerStore) (m : Int) : List MoveLine :=
  store.lines.filter (fun l => l.move_id == m)

/-- One iteration of the direct-relation loop (`accounting.py` 927-954):
read the entry's lines restricted to the destination accounts; if any
exist, read the entry header and its full line set and emit a record. -/
def directStep (store : LedgerStore) (T : List Int) (m : Int) :
    List DirectRelation × List TraceEvent :=
  let to_lines_in_move := store.lines.filter (fun l => l.move_id == m && accountIdIn T l)
  if to_lines_in_move.isEmpty then ([], [TraceEvent.lineRead])
  else ([{ move_id := m, lines := linesOfMove store m }],
        [TraceEvent.lineRead, TraceEvent.moveRead m, TraceEvent.lineRead])

/-- The whole direct-relation phase: one `directStep` per collected parent
entry id, results and events concatenated in order. -/
def directPhase (store : LedgerStore) (T : List Int) (move_ids : List Int) :
    List DirectRelation × List TraceEvent :=
  let pairs := move_ids.map (directStep store T)
  ((pairs.map Prod.fst).flatten, (pairs.map Prod.snd).flatten)

/-- One iteration of the indirect-relation loop (`accounting.py` 979-1013):
read the entry header and its full line set; keep the entry only if it has
a line on a destination account, the header was found, and at least one
source-side line shares its partner. -/
def indirectStep (store : LedgerStore) (T : List Int) (from_lines : List MoveLine)
    (m : Int) : List IndirectRelation × List TraceEvent :=
  let move_info := store.moves.filter (fun mv => mv.id == m)
  let all_lines := linesOfMove store m
  let to_account_lines := all_lines.filter (accountIdIn T)
  let evs := [TraceEvent.moveRead m, TraceEvent.lineRead]
  match move_info with
  | [] => ([], evs)
  | mv :: _ =>
    if to_account_lines.isEmpty then ([], evs)
    else
      let partner : Option Int := mv.partner_id.map Prod.fst
      let related_from_moves :=
        (from_lines.filter (fun l =>
          match l.partner_id, partner with
          | some p, some q => p == q
          | _, _ => false)).map MoveLine.move_id
      if related_from_moves.isEmpty then ([], evs)
      else
        ([{ move_id := m, to_lines := all_lines,
            related_from_moves := related_from_moves,
            partner := match mv.partner_id with | some pr => pr.2 | none => "" }],
         evs)

/-- The indirect-relation phase (`accounting.py` 956-1013): pursued only
while the direct count is below `limit` and the shared-partner set is
non-empty; reads destination-account lines for those partners (capped at
100), drops parent entries already collected on the source side, and
processes at most `limit - directCount` of the remaining ones. -/
def indirectPhase (store : LedgerStore) (T : List Int) (from_lines : List MoveLine)
    (move_ids partner_ids : List Int) (date_from date_to : Option String)
    (limit directCount : Nat) : List IndirectRelation × List TraceEvent :=
  if directCount < limit ∧ partner_ids ≠ [] then
    let to_lines := (store.lines.filter (fun l =>
        accountIdIn T l && partnerIdIn partner_ids l && lineDateOk date_from date_to l)).take 100
    let related_move_ids := (to_lines.map MoveLine.move_id).dedup
    let new_move_ids := related_move_ids.filter (fun m => !move_ids.contains m)
    let chosen := new_move_ids.take (limit - directCount)
    let pairs := chosen.map (indirectStep store T from_lines)
    ((pairs.map Prod.fst).flatten, TraceEvent.lineRead :: (pairs.map Prod.snd).flatten)
  else ([], [])

/-- `trace_account_flow` (`accounting.py` 862-1029): resolve both account
codes (failing early with the `{"error": ...}` dict when either resolves
to nothing), collect the source-side lines and their parent-entry and
partner id sets, then run the direct and indirect phases. -/
def trace_account_flow (store : LedgerStore) (from_account to_account : String)
    (date_from date_to : Option String) (limit : Nat) :
    TraceOutcome × List TraceEvent :=
  let F := resolveAccounts store from_account
  let T := resolveAccounts store to_account
  let evs0 := [TraceEvent.accountSearch from_account, TraceEvent.accountSearch to_account]
  if F.isEmpty then
    (TraceOutcome.notFound ("No accounts found matching the number " ++ from_account), evs0)
  else if T.isEmpty then
    (TraceOutcome.notFound ("No accounts found matching the number " ++ to_account), evs0)
  else
    let from_lines := traceFromLines store F date_from date_to
    let move_ids := (from_lines.map MoveLine.move_id).dedup
    let partner_ids := (from_lines.filterMap MoveLine.partner_id).dedup
    let dp := directPhase store T move_ids
    let ip := indirectPhase store T from_lines move_ids partner_ids
        date_from date_to limit dp.1.length
    (TraceOutcome.ok { direct_relations := dp.1, indirect_relations := ip.1 },
     evs0 ++ TraceEvent.lineRead :: (dp.2 ++ ip.2))

/-!
## Claims about the session client
-/

/-- A concrete call payload used by the demonstration oracles. -/
def demoCall : RpcCall :=
  { model := "account.move", method := "search_read", args := [], kwargs := [] }

/-- Backend behaviour: expiry-signature fault on the first attempt,
successful reconnect (new uid 7), success (42) on the retry. -/
def demoOracleExpiry : RpcOracle Nat :=
  { preAuth := AuthOutcome.returns 9, preVersionFault := none,
    attempt1 := Attempt.fault "Odoo Session Expired, please re-authenticate",
    reAuth := AuthOutcome.returns 7, reVersionFault := none,
    attempt2 := Attempt.ok 42 }

/-- Backend behaviour: a non-expiry fault on the first attempt. -/
def demoOracleFault : RpcOracle Nat :=
  { preAuth := AuthOutcome.returns 9, preVersionFault := none,
    attempt1 := Attempt.fault "Access Denied", reAuth := AuthOutcome.returns 9,
    reVersionFault := none, attempt2 := Attempt.ok 0 }

/-- Claim C1: if the first attempt of a connected client fails with a fault
whose message contains (case-insensitively) "session expired" or
"not logged", `execute_kw` calls `connect()` exactly once, retries the
original call exactly once with the same payload, and returns the second
attempt's result when it succeeds. -/
theorem execute_kw_retries_once_on_expiry {V : Type} (st : ClientState) (c : RpcCall)
    (o : RpcOracle V) (msg : String) (u : Int) (v : V)
    (hconn : pyTruthyUid st.uid = true)
    (h1 : o.attempt1 = Attempt.fault msg)
    (hsig : expirySignature msg = true)
    (hauth : o.reAuth = AuthOutcome.returns u) (hu : ¬ u = 0)
    (hver : o.reVersionFault = none)
    (h2 : o.attempt2 = Attempt.ok v) :
    execute_kw st c o =
      (ExecResult.ok v, ClientState.mk (some u) true,
       [RpcEvent.remoteCall st.uid c, RpcEvent.connectCall,
        RpcEvent.remoteCall (some u) c]) := by
  have hu' : (u == 0) = false := by simpa using hu
  simp [execute_kw, connect, hconn, h1, hsig, hauth, hver, h2, hu']

/-- Witness for C1 at a concrete input. -/
theorem execute_kw_retries_once_on_expiry_witness :
    pyTruthyUid (some 3) = true ∧
    expirySignature "Odoo Session Expired, please re-authenticate" = true ∧
    execute_kw (ClientState.mk (some 3) true) demoCall demoOracleExpiry =
      (ExecResult.ok 42, ClientState.mk (some 7) true,
       [RpcEvent.remoteCall (some 3) demoCall, RpcEvent.connectCall,
        RpcEvent.remoteCall (some 7) demoCall]) :=
  ⟨rfl, by decide,
   execute_kw_retries_once_on_expiry (ClientState.mk (some 3) true) demoCall demoOracleExpiry
     "Odoo Session Expired, please re-authenticate" 7 42 rfl rfl (by decide) rfl
     (by decide) rfl rfl⟩

/-- Claim C2, counterexample to the stated error class: on a non-expiry
fault the client raises `OdooConnectionError`, not `OdooRequestError`
(`OdooRequestError` is defined in `src/odoo/exceptions.py` but never
raised). -/
theorem execute_kw_nonexpiry_error_class_cx :
    (execute_kw (ClientState.mk (some 3) true) demoCall demoOracleFault).1 =
      ExecResult.err (OdooErr.connectionError
        "Error executing search_read on account.move: Access Denied")
    ∧ ExecResult.isRequestErr
        (execute_kw (ClientState.mk (some 3) true) demoCall demoOracleFault).1 = false := by
  exact ⟨by decide, by decide⟩

/-- Claim C2 (amended): on a fault that does not match the expiry
signature, a connected client raises `OdooConnectionError` wrapping the
remote fault, does not invoke `connect()`, and issues no second remote
call. -/
theorem execute_kw_nonexpiry_no_reconnect {V : Type} (st : ClientState) (c : RpcCall)
    (o : RpcOracle V) (msg : String)
    (hconn : pyTruthyUid st.uid = true)
    (h1 : o.attempt1 = Attempt.fault msg)
    (hsig : expirySignature msg = false) :
    execute_kw st c o =
      (ExecResult.err (OdooErr.connectionError
          ("Error executing " ++ c.method ++ " on " ++ c.model ++ ": " ++ msg)),
       st, [RpcEvent.remoteCall st.uid c]) := by
  simp [execute_kw, hconn, h1, hsig]

/-- Witness for the amended C2 at a concrete input. -/
theorem execute_kw_nonexpiry_no_reconnect_witness :
    pyTruthyUid (some 3) = true ∧
    expirySignature "Access Denied" = false ∧
    execute_kw (ClientState.mk (some 3) true) demoCall demoOracleFault =
      (ExecResult.err (OdooErr.connectionError
          "Error executing search_read on account.move: Access Denied"),
       ClientState.mk (some 3) true, [RpcEvent.remoteCall (some 3) demoCall]) :=
  ⟨rfl, by decide,
   execute_kw_nonexpiry_no_reconnect (ClientState.mk (some 3) true) demoCall demoOracleFault
     "Access Denied" rfl rfl (by decide)⟩

/-- Claim C3, evaluated at the failing input: when the backend rejects the
credentials (`authenticate` returns the falsy `False`, embedded as uid 0),
`connect` surfaces `OdooConnectionError` — the `OdooAuthenticationError`
raised inside the `try` block is swallowed by the blanket
`except Exception` and re-wrapped — contradicting both the claim and the
method's own docstring.  The transport-failure half of the claim does hold
(`OdooConnectionError`), and in both failure cases the client is left with
`is_connected = false`. -/
theorem connect_auth_rejected_wrapped_as_connection_error :
    connect (ClientState.mk none false) (AuthOutcome.returns 0) none =
      (Except.error (OdooErr.connectionError
          "Error connecting to Odoo: Authentication failed with the provided credentials"),
       ClientState.mk (some 0) false)
    ∧ is_connected (connect (ClientState.mk none false) (AuthOutcome.returns 0) none).2 = false
    ∧ connect (ClientState.mk none false) (AuthOutcome.raises "connection refused") none =
      (Except.error (OdooErr.connectionError "Error connecting to Odoo: connection refused"),
       ClientState.mk none false)
    ∧ is_connected
        (connect (ClientState.mk none false) (AuthOutcome.raises "connection refused") none).2
        = false :=
  ⟨rfl, rfl, rfl, rfl⟩

/-!
## Claims about reconciliation
-/

/-- Claim C4: for every emitted reconciliation record, `total_paid` is the
sum of the payment amounts, `outstanding` is the entry total minus
`total_paid`, and `is_reconciled` holds iff the payment state is `"paid"`
or `|outstanding| < 0.01`; in particular with `total = 100.00`, payments
summing to 99.995 give `is_reconciled = true`, and payments summing to
98.00 give `is_reconciled = false` with `outstanding = 2.00`. -/
theorem reconciliation_totals_and_flag :
    (∀ (inv : Invoice) (pays : List Payment),
      (reconRecordOf inv pays).total_paid = (pays.map Payment.amount).sum ∧
      (reconRecordOf inv pays).outstanding
          = inv.amount_total - (pays.map Payment.amount).sum ∧
      ((reconRecordOf inv pays).is_reconciled = true ↔
        (inv.payment_state = "paid" ∨ |(reconRecordOf inv pays).outstanding| < 1 / 100)))
    ∧ (reconRecordOf invoice100 [payment99995]).is_reconciled = true
    ∧ (reconRecordOf invoice100 [payment98]).is_reconciled = false
    ∧ (reconRecordOf invoice100 [payment98]).outstanding = 2 := by
  refine ⟨fun inv pays => ⟨rfl, rfl, ?_⟩, ?_, ?_, ?_⟩
  · simp [reconRecordOf]
  · norm_num [reconRecordOf, invoice100, payment99995, abs]
  · norm_num [reconRecordOf, invoice100, payment98, abs]
    decide
  · norm_num [reconRecordOf, invoice100, payment98]

/-- Claim C5: however many entries match the filter, the invoice read is
issued with the batch cap 5 as its limit, so at most 5 entries are read
and exactly one reconciliation record is emitted per entry read (in
order). -/
theorem reconcile_batch_cap (store : ReconStore) (date_from date_to : Option String) :
    (reconcile_invoices_and_payments store date_from date_to).length
        = min 5 ((store.invoices.filter (matchesReconDomain date_from date_to)).length)
    ∧ (reconcile_invoices_and_payments store date_from date_to).length ≤ 5
    ∧ (reconcile_invoices_and_payments store date_from date_to).map ReconRecord.invoice_id
        = ((store.invoices.filter (matchesReconDomain date_from date_to)).take 5).map
            Invoice.id := by
  refine ⟨?_, ?_, ?_⟩
  · simp [reconcile_invoices_and_payments]
  · simp [reconcile_invoices_and_payments]
  · simp only [reconcile_invoices_and_payments, List.map_map]
    rfl

/-!
## Claims about the domain builders
-/

/-- The vendor-bills builder refines the spec-side description. -/
theorem vendor_bills_domain_eq_spec (p : Option Int) (pe : Option Bool)
    (df dt : Option String) :
    list_vendor_bills_domain p pe df dt = specVendorBillsDomain p pe df dt := by
  rcases p with _ | p <;> rcases pe with _ | pe <;> rcases df with _ | df <;>
    rcases dt with _ | dt <;>
    simp [list_vendor_bills_domain, specVendorBillsDomain, specEqContribution,
      specPendingContribution, specDateFromContribution, specDateToContribution] <;>
    split_ifs <;> simp_all

/-- The customer-invoices builder refines the spec-side description. -/
theorem customer_invoices_domain_eq_spec (p : Option Int) (pe : Option Bool)
    (df dt : Option String) :
    list_customer_invoices_domain p pe df dt = specCustomerInvoicesDomain p pe df dt := by
  rcases p with _ | p <;> rcases pe with _ | pe <;> rcases df with _ | df <;>
    rcases dt with _ | dt <;>
    simp [list_customer_invoices_domain, specCustomerInvoicesDomain, specEqContribution,
      specPendingContribution, specDateFromContribution, specDateToContribution] <;>
    split_ifs <;> simp_all

/-- The suppliers builder refines the spec-side description. -/
theorem suppliers_domain_eq_spec (nm : Option String) :
    list_suppliers_domain nm = specSuppliersDomain nm := by
  rcases nm with _ | nm
  · rfl
  · simp only [list_suppliers_domain, specSuppliersDomain, specNameContribution]
    split_ifs <;> simp_all

/-- Claim C6: each builder produces the base predicate followed by exactly
one contribution per (truthy-)present parameter — equality for a partner
id, payment-state-not-equal for a pending flag of true, inclusive `>=`/`<=`
range predicates for the dates, `ilike` for a name fragment — omitted (or
falsy, see C10) parameters contribute nothing, and the predicates appear
in the fixed insertion order of the parameter list. -/
theorem domain_builders_per_parameter :
    (∀ (p : Option Int) (pe : Option Bool) (df dt : Option String),
      list_vendor_bills_domain p pe df dt = specVendorBillsDomain p pe df dt)
    ∧ (∀ (p : Option Int) (pe : Option Bool) (df dt : Option String),
      list_customer_invoices_domain p pe df dt = specCustomerInvoicesDomain p pe df dt)
    ∧ (∀ nm : Option String, list_suppliers_domain nm = specSuppliersDomain nm)
    ∧ (∀ (p : Option Int) (pe : Option Bool) (df dt : Option String),
      (list_vendor_bills_domain p pe df dt).length
        = 1 + (specEqContribution "partner_id" p).length
            + (specPendingContribution pe).length
            + (specDateFromContribution "invoice_date" df).length
            + (specDateToContribution "invoice_date" dt).length) := by
  refine ⟨vendor_bills_domain_eq_spec, customer_invoices_domain_eq_spec,
    suppliers_domain_eq_spec, ?_⟩
  intro p pe df dt
  rw [vendor_bills_domain_eq_spec]
  simp [specVendorBillsDomain]
  omega

/-- Claim C10: a parameter supplied with its type's falsy value (partner
id 0, pending `False`, empty-string date) contributes no predicate, so the
built domain is identical to the one built with the parameter omitted. -/
theorem falsy_params_build_same_domain :
    (∀ (pe : Option Bool) (df dt : Option String),
      list_vendor_bills_domain (some 0) pe df dt = list_vendor_bills_domain none pe df dt)
    ∧ (∀ (p : Option Int) (df dt : Option String),
      list_vendor_bills_domain p (some false) df dt = list_vendor_bills_domain p none df dt)
    ∧ (∀ (p : Option Int) (pe : Option Bool) (dt : Option String),
      list_vendor_bills_domain p pe (some "") dt = list_vendor_bills_domain p pe none dt)
    ∧ (∀ (p : Option Int) (pe : Option Bool) (df : Option String),
      list_vendor_bills_domain p pe df (some "") = list_vendor_bills_domain p pe df none)
    ∧ (∀ (pe : Option Bool) (df dt : Option String),
      list_customer_invoices_domain (some 0) pe df dt
        = list_customer_invoices_domain none pe df dt)
    ∧ (∀ (df dt : Option String),
      list_payments_domain (some 0) df dt = list_payments_domain none df dt)
    ∧ (∀ (p : Option Int) (dt : Option String),
      list_payments_domain p (some "") dt = list_payments_domain p none dt)
    ∧ (∀ (p : Option Int) (df : Option String),
      list_payments_domain p df (some "") = list_payments_domain p df none) := by
  refine ⟨?_, ?_, ?_, ?_, ?_, ?_, ?_, ?_⟩ <;> intros <;> rfl

/-!
## Claims about the flow tracer
-/

/-- A flatten of per-element lists of length at most one has at most one
element per source element. -/
theorem length_flatten_le_of_le_one {α β : Type} (f : β → List α) (l : List β)
    (hf : ∀ x, (f x).length ≤ 1) : ((l.map f).flatten).length ≤ l.length := by
  induction l with
  | nil => simp
  | cons a l ih =>
    simp only [List.map_cons, List.flatten_cons, List.length_append, List.length_cons]
    have h1 := hf a
    omega

/-- Each indirect-loop iteration emits at most one record. -/
theorem indirectStep_length_le_one (store : LedgerStore) (T : List Int)
    (from_lines : List MoveLine) (m : Int) :
    ((indirectStep store T from_lines m).1).length ≤ 1 := by
  simp only [indirectStep]
  split
  · simp
  · split_ifs <;> simp

/-- Any record emitted by an indirect-loop iteration carries that
iteration's entry id and has at least one line on a destination account. -/
theorem indirectStep_mem (store : LedgerStore) (T : List Int)
    (from_lines : List MoveLine) (m : Int) (rec : IndirectRelation)
    (h : rec ∈ (indirectStep store T from_lines m).1) :
    rec.move_id = m ∧ rec.to_lines.any (accountIdIn T) = true := by
  simp only [indirectStep] at h
  split at h
  · simp at h
  · rename_i mv rest heq
    split_ifs at h with h1 h2 <;> simp at h
    subst h
    refine ⟨rfl, ?_⟩
    rw [List.any_eq_true]
    have hne : (linesOfMove store m).filter (accountIdIn T) ≠ [] := by
      intro hnil
      rw [← List.isEmpty_iff] at hnil
      exact h1 hnil
    obtain ⟨x, hx⟩ := List.exists_mem_of_ne_nil _ hne
    rw [List.mem_filter] at hx
    exact ⟨x, hx.1, hx.2⟩

/-- One direct-loop iteration only emits a record for its own entry id. -/
theorem directStep_mem (store : LedgerStore) (T : List Int) (m : Int)
    (d : DirectRelation) (h : d ∈ (directStep store T m).1) : d.move_id = m := by
  simp only [directStep] at h
  split_ifs at h <;> simp at h
  simp [h]

/-- Any direct relation's entry id comes from the collected source-side
parent-entry id set. -/
theorem directPhase_mem (store : LedgerStore) (T : List Int) (move_ids : List Int)
    (d : DirectRelation) (h : d ∈ (directPhase store T move_ids).1) :
    d.move_id ∈ move_ids := by
  unfold directPhase at h
  simp only [List.map_map, List.mem_flatten, List.mem_map] at h
  obtain ⟨l, ⟨m, hm, hl⟩, hd⟩ := h
  subst hl
  have := directStep_mem store T m d hd
  rw [this]
  exact hm

/-- The indirect phase emits nothing when the direct count already meets
the limit or the shared-partner set is empty. -/
theorem indirectPhase_not_pursued (store : LedgerStore) (T : List Int)
    (from_lines : List MoveLine) (move_ids partner_ids : List Int)
    (date_from date_to : Option String) (limit directCount : Nat)
    (h : ¬ (directCount < limit ∧ partner_ids ≠ [])) :
    (indirectPhase store T from_lines move_ids partner_ids date_from date_to
        limit directCount).1 = [] := by
  unfold indirectPhase
  rw [if_neg h]

/-- The indirect phase emits at most `limit - directCount` records. -/
theorem indirectPhase_length_le (store : LedgerStore) (T : List Int)
    (from_lines : List MoveLine) (move_ids partner_ids : List Int)
    (date_from date_to : Option String) (limit directCount : Nat) :
    (indirectPhase store T from_lines move_ids partner_ids date_from date_to
        limit directCount).1.length ≤ limit - directCount := by
  unfold indirectPhase
  split_ifs with hg
  · simp only [List.map_map]
    refine le_trans (length_flatten_le_of_le_one _ _ ?_) ?_
    · intro m
      exact indirectStep_length_le_one store T from_lines m
    · rw [List.length_take]
      exact min_le_left _ _
  · simp

/-- Records emitted by the indirect phase exclude every entry already
collected on the source side and keep a line on a destination account. -/
theorem indirectPhase_mem (store : LedgerStore) (T : List Int)
    (from_lines : List MoveLine) (move_ids partner_ids : List Int)
    (date_from date_to : Option String) (limit directCount : Nat)
    (rec : IndirectRelation)
    (h : rec ∈ (indirectPhase store T from_lines move_ids partner_ids date_from date_to
        limit directCount).1) :
    move_ids.contains rec.move_id = false
    ∧ rec.to_lines.any (accountIdIn T) = true := by
  unfold indirectPhase at h
  split_ifs at h with hg
  · simp only [List.map_map, List.mem_flatten, List.mem_map] at h
    obtain ⟨l, ⟨m, hm, hl⟩, hrec⟩ := h
    subst hl
    obtain ⟨hid, hany⟩ := indirectStep_mem store T from_lines m rec hrec
    refine ⟨?_, hany⟩
    have hm' := List.take_subset _ _ hm
    rw [List.mem_filter] at hm'
    rw [hid]
    simpa using hm'.2
  · simp at h

/-- Claim C7: when either account code resolves to no account ids, the
tracer fails with the not-found error before issuing any move-line read
(the only remote reads logged are the two account searches). -/
theorem trace_unresolved_account_notfound (store : LedgerStore)
    (from_account to_account : String) (date_from date_to : Option String)
    (limit : Nat)
    (h : (resolveAccounts store from_account).isEmpty = true
       ∨ (resolveAccounts store to_account).isEmpty = true) :
    (∃ msg, (trace_account_flow store from_account to_account date_from date_to limit).1
        = TraceOutcome.notFound msg)
    ∧ (trace_account_flow store from_account to_account date_from date_to limit).2
        = [TraceEvent.accountSearch from_account, TraceEvent.accountSearch to_account] := by
  simp only [trace_account_flow]
  rcases h with h | h
  · simp [h]
  · by_cases hf : (resolveAccounts store from_account).isEmpty
    · simp [hf]
    · simp [hf, h]

/-- A ledger store with no account matching the source code "572". -/
def demoLedgerNoFrom : LedgerStore :=
  { accounts := [{ id := 20, code := "400" }], moves := [], lines := [] }

/-- Witness for C7 at a concrete input. -/
theorem trace_unresolved_account_notfound_witness :
    ((resolveAccounts demoLedgerNoFrom "572").isEmpty = true
       ∨ (resolveAccounts demoLedgerNoFrom "400").isEmpty = true)
    ∧ ((∃ msg, (trace_account_flow demoLedgerNoFrom "572" "400" none none 10).1
        = TraceOutcome.notFound msg)
    ∧ (trace_account_flow demoLedgerNoFrom "572" "400" none none 10).2
        = [TraceEvent.accountSearch "572", TraceEvent.accountSearch "400"]) :=
  ⟨Or.inl (by decide),
   trace_unresolved_account_notfound demoLedgerNoFrom "572" "400" none none 10
     (Or.inl (by decide))⟩

/-- Claim C8: in every successful trace, indirect relations exclude every
parent entry collected on the source side (hence never repeat a direct
relation's entry), the indirect search is pursued only when the direct
count is below the limit and the shared-partner set is non-empty, at most
`limit - |directRelations|` indirect records are emitted, and every kept
indirect record has a line on a destination account. -/
theorem trace_indirect_relations_props (store : LedgerStore) (fa ta : String)
    (df dt : Option String) (limit : Nat) (r : TraceResult)
    (h : (trace_account_flow store fa ta df dt limit).1 = TraceOutcome.ok r) :
    (∀ rec ∈ r.indirect_relations,
      (((traceFromLines store (resolveAccounts store fa) df dt).map
          MoveLine.move_id).dedup).contains rec.move_id = false)
    ∧ (∀ rec ∈ r.indirect_relations, ∀ d ∈ r.direct_relations,
        d.move_id ≠ rec.move_id)
    ∧ (r.indirect_relations ≠ [] →
        r.direct_relations.length < limit ∧
        ((traceFromLines store (resolveAccounts store fa) df dt).filterMap
            MoveLine.partner_id).dedup ≠ [])
    ∧ (r.indirect_relations.length ≤ limit - r.direct_relations.length)
    ∧ (∀ rec ∈ r.indirect_relations,
        rec.to_lines.any (accountIdIn (resolveAccounts store ta)) = true) := by
  simp only [trace_account_flow] at h
  split at h
  · simp at h
  · split at h
    · simp at h
    · simp only [TraceOutcome.ok.injEq] at h
      subst h
      refine ⟨?_, ?_, ?_, ?_, ?_⟩
      · intro rec hrec
        exact (indirectPhase_mem _ _ _ _ _ _ _ _ _ rec hrec).1
      · intro rec hrec d hd
        have h1 := (indirectPhase_mem _ _ _ _ _ _ _ _ _ rec hrec).1
        have h2 := directPhase_mem _ _ _ d hd
        intro hEq
        rw [← hEq] at h1
        simp at h1 h2
        obtain ⟨x, hx, hxe⟩ := h2
        exact h1 x hx hxe
      · intro hne
        by_contra hng
        have := indirectPhase_not_pursued store (resolveAccounts store ta)
          (traceFromLines store (resolveAccounts store fa) df dt)
          (((traceFromLines store (resolveAccounts store fa) df dt).map
              MoveLine.move_id).dedup)
          (((traceFromLines store (resolveAccounts store fa) df dt).filterMap
              MoveLine.partner_id).dedup)
          df dt limit
          (directPhase store (resolveAccounts store ta)
            (((traceFromLines store (resolveAccounts store fa) df dt).map
                MoveLine.move_id).dedup)).1.length
          (by tauto)
        exact hne this
      · exact indirectPhase_length_le _ _ _ _ _ _ _ _ _
      · intro rec hrec
        exact (indirectPhase_mem _ _ _ _ _ _ _ _ _ rec hrec).2

/-- A source-account line of entry 1 (account 10, partner 5). -/
def lineA : MoveLine :=
  { id := 1, move_id := 1, account_id := some 10, partner_id := some 5,
    date := "2024-01-10" }

/-- A destination-account line of entry 1 (account 20, partner 5). -/
def lineB : MoveLine :=
  { id := 2, move_id := 1, account_id := some 20, partner_id := some 5,
    date := "2024-01-10" }

/-- The spec's worked example: codes "572" and "400" resolving to accounts
10 and 20, and one entry E1 with lines on both. -/
def demoLedger : LedgerStore :=
  { accounts := [{ id := 10, code := "572" }, { id := 20, code := "400" }],
    moves := [{ id := 1, partner_id := some (5, "ACME") }],
    lines := [lineA, lineB] }

/-- The trace output on `demoLedger`: E1 is a direct relation and the
indirect list is empty. -/
def demoTraceResult : TraceResult :=
  { direct_relations := [{ move_id := 1, lines := [lineA, lineB] }],
    indirect_relations := [] }

example : (trace_account_flow demoLedger "572" "400" none none 10).1
    = TraceOutcome.ok demoTraceResult := by decide

/-- Witness for C8 at the spec's worked example. -/
theorem trace_indirect_relations_props_witness :
    (trace_account_flow demoLedger "572" "400" none none 10).1
        = TraceOutcome.ok demoTraceResult
    ∧ ((∀ rec ∈ demoTraceResult.indirect_relations,
        (((traceFromLines demoLedger (resolveAccounts demoLedger "572") none none).map
            MoveLine.move_id).dedup).contains rec.move_id = false)
    ∧ (∀ rec ∈ demoTraceResult.indirect_relations,
        ∀ d ∈ demoTraceResult.direct_relations, d.move_id ≠ rec.move_id)
    ∧ (demoTraceResult.indirect_relations ≠ [] →
        demoTraceResult.direct_relations.length < 10 ∧
        ((traceFromLines demoLedger (resolveAccounts demoLedger "572") none none).filterMap
            MoveLine.partner_id).dedup ≠ [])
    ∧ (demoTraceResult.indirect_relations.length
        ≤ 10 - demoTraceResult.direct_relations.length)
    ∧ (∀ rec ∈ demoTraceResult.indirect_relations,
        rec.to_lines.any (accountIdIn (resolveAccounts demoLedger "400")) = true)) :=
  ⟨by decide,
   trace_indirect_relations_props demoLedger "572" "400" none none 10 demoTraceResult
     (by decide)⟩
